import Mathlib

/-!
Verification of the elite_admin backend core (membership-tier access gate,
profile/photo presenter, notification feed) against its specification.

The definitions below are a shallow embedding of the Python source in
`app/views.py`, `app/serializers.py` and `app/models.py`.  Database tables are
modelled as lists of records already in their stored order (Django's default
`Meta.ordering` for photo sets, primary-key rows for people/notifications);
ORM `filter`/`first`/`update` calls become `List.filter` / `List.find?` /
`List.map`.  Python string primitives (`int(...)`, `str.strip`, `str.lower`,
`startswith`, `in`) are re-implemented on character lists so that every
definition evaluates on concrete inputs.
-/

/-! ### Python string semantics helpers -/

/-- Whitespace characters removed by Python's `str.strip()` (the common ones). -/
def isSpaceChar (c : Char) : Bool :=
  c == ' ' || c == '\t' || c == '\n' || c == '\r'

/-- Strip leading and trailing whitespace, as Python's `str.strip()` does. -/
def pyStrip (l : List Char) : List Char :=
  ((l.dropWhile isSpaceChar).reverse.dropWhile isSpaceChar).reverse

/-- Value of an ASCII decimal digit character. -/
def digitVal (c : Char) : Option Nat :=
  List.lookup c [('0',0),('1',1),('2',2),('3',3),('4',4),('5',5),('6',6),('7',7),('8',8),('9',9)]

/-- Read a non-empty all-digit character list as a natural number. -/
def digitsToNat (l : List Char) : Option Nat :=
  l.foldl (fun acc c =>
    match acc, digitVal c with
    | some n, some d => some (n * 10 + d)
    | _, _ => none) (some 0)

/-- Python's `int(s)` on a string: optional surrounding whitespace, optional
sign, then decimal digits; `none` models the `ValueError` raised otherwise.
(Digit-group underscores and non-ASCII digits, which CPython also accepts,
are not modelled; no claim depends on them.) -/
def pyInt (s : String) : Option Int :=
  match pyStrip s.data with
  | '-' :: rest => if rest.isEmpty then none else (digitsToNat rest).map (fun n => -(n : Int))
  | '+' :: rest => if rest.isEmpty then none else (digitsToNat rest).map (fun n => (n : Int))
  | t => if t.isEmpty then none else (digitsToNat t).map (fun n => (n : Int))

/-- Python's `s.startswith(p)`. -/
def pyStartsWith (s p : String) : Bool := p.data.isPrefixOf s.data

/-- ASCII lower-casing, as Django's case-insensitive matching uses. -/
def pyLower (s : String) : String := String.mk (s.data.map Char.toLower)

/-- Substring test on character lists (Python's `needle in haystack`). -/
def listContainsSub (n : List Char) : List Char → Bool
  | [] => n.isEmpty
  | c :: t => n.isPrefixOf (c :: t) || listContainsSub n t

/-- Django's `field__icontains=needle`: case-insensitive substring match. -/
def icontains (haystack needle : String) : Bool :=
  listContainsSub (pyLower needle).data (pyLower haystack).data

/-- Python truthiness of an optional string field (`None` and `""` are falsy);
this is the test behind `if obj.profile_picture:` and the query-parameter
guards in `views.py`. -/
def truthyS : Option String → Bool
  | none => false
  | some s => !(s == "")

/-! ### Membership tier resolver and access gate (views.py) -/

/-- Association list for `membership_hierarchy = {'regular': 1, 'gold': 2,
'platinum': 3}` appearing in `get_people_list`, `get_person_detail`,
`get_people_stats` and `check_access_to_person`. -/
def membership_hierarchy : List (String × Nat) :=
  [("regular", 1), ("gold", 2), ("platinum", 3)]

/-- Tier rank: `membership_hierarchy.get(tier, 1)` — unknown labels default
to rank 1. -/
def rank (tier : String) : Nat :=
  (membership_hierarchy.lookup tier).getD 1

/-- Access-gate decision `has_access = user_level >= person_level` from
`check_access_to_person` (the same comparison gates `get_person_detail`). -/
def can_view (viewer_tier subject_tier : String) : Bool :=
  rank viewer_tier ≥ rank subject_tier

/-! ### Data model (models.py) -/

/-- Row of `people_photos` (`PeoplePhoto`): image reference and canonical
flag. The list holding these records is kept in the model's stored order
(`Meta.ordering`), which is all the claims need of `order`/`uploaded_at`. -/
structure PeoplePhoto where
  image : String
  is_profile_picture : Bool
  deriving DecidableEq, Repr

/-- Row of `people` (`People`), restricted to the fields the claims touch. -/
structure People where
  id : Nat
  first_name : String
  last_name : String
  age : Option Int
  gender : String
  occupation : String
  location : String
  membership_type : String
  verified : Bool
  is_active : Bool
  created_at : Nat
  profile_views : Nat
  profile_picture : Option String
  photos : List PeoplePhoto
  latitude : Option ℚ
  longitude : Option ℚ
  deriving DecidableEq, Repr

/-- Row of `user_photos` (`UserPhoto`): owner, image reference and canonical
flag. `id` is the primary key, `user` the owning account's id. -/
structure UserPhoto where
  id : Nat
  user : Nat
  image : String
  is_profile_picture : Bool
  deriving DecidableEq, Repr

/-- Account (`CustomUser`), restricted to what the presenter claims touch:
the single-value primary picture attribute and the owned photo set (in
stored order). -/
structure CustomUser where
  profile_picture : Option String
  photos : List UserPhoto
  deriving DecidableEq, Repr

/-- Row of `notifications` (`Notification`), restricted to the fields the
feed claims touch. `read_at` is `none` until the notification is read. -/
structure Notification where
  id : Nat
  user : Nat
  is_read : Bool
  read_at : Option Nat
  created_at : Nat
  deriving DecidableEq, Repr

/-! ### Profile presenter (serializers.py) -/

/-- Helper `_get_full_image_url` shared by the People serializers: falsy
reference → no URL; absolute URL kept; otherwise composed with the
configured Cloudinary base path when a cloud name is configured. -/
def get_full_image_url (cloud_name : String) (image : String) : Option String :=
  if image == "" then none
  else if pyStartsWith image "http" then some image
  else if cloud_name == "" then some image
  else some ("https://res.cloudinary.com/" ++ cloud_name ++ "/" ++ image)

/-- Canonical-picture selection of `PeopleDetailSerializer.get_profile_picture`
(identical in `PeopleListSerializer` and `NotificationPersonSerializer`):
the `profile_picture` attribute if truthy, else the first canonical-flagged
photo, else the first photo, else `None`. -/
def people_get_profile_picture (cloud_name : String) (p : People) : Option String :=
  if truthyS p.profile_picture then get_full_image_url cloud_name (p.profile_picture.getD "")
  else
    match p.photos.find? (fun ph => ph.is_profile_picture) with
    | some ph => get_full_image_url cloud_name ph.image
    | none =>
      match p.photos.head? with
      | some ph => get_full_image_url cloud_name ph.image
      | none => none

/-- Canonical-picture selection of `UserProfileSerializer.get_profile_picture`
(the Account presentation): first canonical-flagged photo, else first photo,
else `None`; the raw image reference is returned (`str(photo.image)`).
Note that, unlike the People serializers, it never consults the account's
`profile_picture` attribute. -/
def user_get_profile_picture (u : CustomUser) : Option String :=
  match u.photos.find? (fun ph => ph.is_profile_picture) with
  | some ph => some ph.image
  | none =>
    match u.photos.head? with
    | some ph => some ph.image
    | none => none

/-- Modelled from the spec (§4.3): the canonical-picture selection algorithm
as the specification states it, for comparison with the serializer code.
Priority: the primary single-value picture attribute if set (truthy), else
the first photo flagged canonical, else the first photo, else nothing.
Generic in the photo record via the `image`/`flag` accessors. -/
def specCanonicalPicture {α : Type} (primary : Option String)
    (image : α → String) (flag : α → Bool) (photos : List α) : Option String :=
  if truthyS primary then primary
  else
    match photos.find? flag with
    | some ph => some (image ph)
    | none =>
      match photos.head? with
      | some ph => some (image ph)
      | none => none

/-- Fold a URL list into an accumulator keeping only first occurrences — the
`if url not in images: images.append(url)` pattern of `get_images`. -/
def appendDedup (acc : List String) (xs : List String) : List String :=
  xs.foldl (fun a x => if x ∈ a then a else a ++ [x]) acc

/-- Order-preserving de-duplication, first occurrence wins. -/
def dedupFirstWins (xs : List String) : List String := appendDedup [] xs

/-- Gallery assembly of `PeopleDetailSerializer.get_images`: the
`profile_picture` attribute's URL first (when the attribute is truthy), then
each owned photo's URL in stored order, appending only URLs that are truthy
and not already present. -/
def get_images (cloud_name : String) (p : People) : List String :=
  let init : List String :=
    if truthyS p.profile_picture then (get_full_image_url cloud_name (p.profile_picture.getD "")).toList
    else []
  p.photos.foldl (fun images ph =>
    match get_full_image_url cloud_name ph.image with
    | none => images
    | some url => if url ∈ images then images else images ++ [url]) init

/-- Modelled from the spec (§4.3 image-gallery assembly): the canonical
picture (as selected by the presenter) first when one exists, then all owned
photos' URLs in stored order, with exact duplicates removed first-wins. -/
def specGallery (cloud_name : String) (p : People) : List String :=
  dedupFirstWins ((people_get_profile_picture cloud_name p).toList ++
    p.photos.filterMap (fun ph => get_full_image_url cloud_name ph.image))

/-! ### Person detail view (views.py `get_person_detail`) -/

/-- Response of `get_person_detail`: 404, the 403 locked payload (whose only
person-derived content is the required membership tier), or the 200 payload
with the serialized person. -/
inductive DetailResponse where
  | notFound : DetailResponse
  | locked (message required_membership user_membership : String) : DetailResponse
  | ok (person : People) (user_membership : String) : DetailResponse
  deriving DecidableEq, Repr

/-- The `get_person_detail` view: look up the person by id with
`is_active=True` (404 if absent), deny with the locked payload when
`user_level < person_level`, otherwise increment `profile_views` (persisted
with `update_fields=['profile_views']`, so no other stored field changes)
and return the detail payload.  The returned list is the `people` table
after the request. -/
def get_person_detail (user_membership : String) (person_id : Nat)
    (db : List People) : DetailResponse × List People :=
  match db.find? (fun p => p.id == person_id && p.is_active) with
  | none => (DetailResponse.notFound, db)
  | some person =>
    if rank user_membership < rank person.membership_type then
      (DetailResponse.locked
        ("Upgrade to " ++ person.membership_type ++ " membership to view this profile")
        person.membership_type user_membership, db)
    else
      (DetailResponse.ok { person with profile_views := person.profile_views + 1 } user_membership,
       db.map (fun p => if p.id == person.id then { person with profile_views := person.profile_views + 1 } else p))

/-! ### People list view (views.py `get_people_list`) -/

/-- Query parameters of `GET /api/people/` (absent parameter = `none`). -/
structure PeopleQuery where
  membership_tier : Option String
  verified_only : Option String
  age_min : Option String
  age_max : Option String
  gender : Option String
  search : Option String

/-- Response envelope of `get_people_list`. -/
structure PeopleListResponse where
  results : List People
  count : Nat
  user_membership : String
  user_membership_level : Nat

/-- The filter pipeline of `get_people_list`: active people only, then the
optional tier / verified / age-range / gender / free-text filters, ordered
by `created_at` descending.  Unparsable age bounds are skipped (`except
ValueError: pass`); the gender filter applies only to the three known
labels. -/
def people_queryset (q : PeopleQuery) (db : List People) : List People :=
  let qs := db.filter (fun p => p.is_active)
  let qs :=
    if truthyS q.membership_tier then qs.filter (fun p => p.membership_type == q.membership_tier.getD "")
    else qs
  let qs :=
    if pyLower (q.verified_only.getD "") == "true" then qs.filter (fun p => p.verified)
    else qs
  let qs :=
    if truthyS q.age_min then
      match pyInt (q.age_min.getD "") with
      | some m => qs.filter (fun p => match p.age with | some a => m ≤ a | none => false)
      | none => qs
    else qs
  let qs :=
    if truthyS q.age_max then
      match pyInt (q.age_max.getD "") with
      | some m => qs.filter (fun p => match p.age with | some a => a ≤ m | none => false)
      | none => qs
    else qs
  let qs :=
    if truthyS q.gender && ((q.gender.getD "") == "male" || (q.gender.getD "") == "female" || (q.gender.getD "") == "other") then
      qs.filter (fun p => p.gender == q.gender.getD "")
    else qs
  let qs :=
    if truthyS q.search then
      qs.filter (fun p =>
        icontains p.first_name (q.search.getD "") || icontains p.last_name (q.search.getD "") ||
        icontains p.occupation (q.search.getD "") || icontains p.location (q.search.getD ""))
    else qs
  qs.mergeSort (fun a b => b.created_at ≤ a.created_at)

/-- The `get_people_list` view: the viewer's membership tier is read but used
only for the `user_membership` / `user_membership_level` echo fields of the
response; the result set comes from `people_queryset` alone. -/
def get_people_list (user_membership : String) (q : PeopleQuery) (db : List People) : PeopleListResponse :=
  { results := people_queryset q db
    count := (people_queryset q db).length
    user_membership := user_membership
    user_membership_level := rank user_membership }

/-! ### Notification feed (views.py) -/

/-- Modelled from the spec: the `Notification.mark_as_read` model method is
called by `views.py` but the Notification model class itself is not among
the provided sources.  Spec §3: the read flag "transitions false→true
exactly once meaningfully (re-marking read is a no-op)"; §4.4: marking read
stamps the read timestamp. -/
def mark_as_read (now : Nat) (n : Notification) : Notification :=
  if n.is_read then n else { n with is_read := true, read_at := some now }

/-- Persist one notification row: every row with the given primary key is
replaced (primary keys are unique in the real store). -/
def replaceById (i : Nat) (x : Notification) (db : List Notification) : List Notification :=
  db.map (fun m => if m.id == i then x else m)

/-- The `mark_notification_as_read` view: owner-scoped lookup (404 when
absent), then `notification.mark_as_read()`. -/
def mark_notification_as_read (acct nid now : Nat) (db : List Notification) :
    Except String Notification × List Notification :=
  match db.find? (fun n => n.id == nid && n.user == acct) with
  | none => (Except.error "Notification not found", db)
  | some n => (Except.ok (mark_as_read now n), replaceById n.id (mark_as_read now n) db)

/-- Row transformation of the set-based update in
`mark_all_notifications_as_read`: rows matching `user=acct, is_read=False`
get `is_read=True, read_at=now`; all other rows are untouched. -/
def markAllStep (acct now : Nat) (n : Notification) : Notification :=
  if n.user == acct && !n.is_read then { n with is_read := true, read_at := some now } else n

/-- The `mark_all_notifications_as_read` view: one conditional update over
the account's unread rows; returns the number of rows updated and the table
afterwards. -/
def mark_all_notifications_as_read (acct now : Nat) (db : List Notification) :
    Nat × List Notification :=
  ((db.filter (fun n => n.user == acct && !n.is_read)).length,
   db.map (markAllStep acct now))

/-- Row transformation of the set-based update in
`mark_multiple_notifications_as_read` (`id__in=ids, user=acct,
is_read=False`). -/
def markManyStep (ids : List Nat) (acct now : Nat) (n : Notification) : Notification :=
  if ids.contains n.id && n.user == acct && !n.is_read then
    { n with is_read := true, read_at := some now }
  else n

/-- The `mark_multiple_notifications_as_read` view after body validation:
one conditional update over the listed unread rows of the account. -/
def mark_multiple_notifications_as_read (ids : List Nat) (acct now : Nat)
    (db : List Notification) : Nat × List Notification :=
  ((db.filter (fun n => ids.contains n.id && n.user == acct && !n.is_read)).length,
   db.map (markManyStep ids acct now))

/-- Queryset of `get_user_notifications` before the limit is applied: the
account's notifications, optionally filtered by
`is_read == (param.lower() == 'true')`. -/
def notifQueryset (acct : Nat) (is_read_param : Option String) (db : List Notification) :
    List Notification :=
  let qs := db.filter (fun n => n.user == acct)
  match is_read_param with
  | none => qs
  | some s => qs.filter (fun n => n.is_read == (pyLower s == "true"))

/-- Django queryset slicing `qs[:k]`: negative bounds raise
`ValueError("Negative indexing is not supported.")`; otherwise the first `k`
rows are kept. -/
def qsSlice {α : Type} (k : Int) (xs : List α) : Except String (List α) :=
  if k < 0 then Except.error "Negative indexing is not supported."
  else Except.ok (xs.take k.toNat)

/-- The `try: limit = int(limit); queryset = queryset[:limit] except
ValueError: queryset = queryset[:50]` block of `get_user_notifications`:
a missing parameter means the integer default 50; a `ValueError` from either
`int(...)` or the slice falls back to the first 50 rows. -/
def applyLimit {α : Type} (limit_param : Option String) (xs : List α) : List α :=
  match limit_param with
  | none => xs.take 50
  | some s =>
    match pyInt s with
    | none => xs.take 50
    | some k =>
      match qsSlice k xs with
      | Except.ok ys => ys
      | Except.error _ => xs.take 50

/-- The `get_user_notifications` view: limited queryset plus the total and
unread counters computed over the account's full notification set. -/
def get_user_notifications (acct : Nat) (is_read_param limit_param : Option String)
    (db : List Notification) : List Notification × Nat × Nat :=
  (applyLimit limit_param (notifQueryset acct is_read_param db),
   (db.filter (fun n => n.user == acct)).length,
   (db.filter (fun n => n.user == acct && !n.is_read)).length)

/-! ### Photo upload and set-profile-picture (views.py) -/

/-- Arguments of a `UserPhoto.objects.create(...)` call made by
`upload_user_photos` (the primary key is assigned by storage and is
irrelevant to the ceiling claim). -/
structure CreatedPhoto where
  image : String
  is_profile_picture : Bool
  order : Nat
  deriving DecidableEq, Repr

/-- The `for index, file in enumerate(files)` loop of `upload_user_photos`:
stop as soon as the existing count plus the photos created so far reaches 6;
the first photo of a previously photo-less account is flagged canonical. -/
def uploadLoop (existing : Nat) : Nat → List String → List CreatedPhoto → List CreatedPhoto
  | _, [], photos => photos
  | index, f :: fs, photos =>
    if 6 ≤ existing + photos.length then photos
    else uploadLoop existing (index + 1) fs
      (photos ++ [{ image := f
                    is_profile_picture := existing == 0 && index == 0
                    order := existing + index }])

/-- The `upload_user_photos` view: 400 on an empty batch, 400 on a batch of
more than 6 files, otherwise the created photos (at most up to the 6-photo
ceiling counting existing photos). -/
def upload_user_photos (existing : Nat) (files : List String) : Except String (List CreatedPhoto) :=
  if files.isEmpty then Except.error "No photos provided"
  else if 6 < files.length then Except.error "Maximum 6 photos allowed"
  else Except.ok (uploadLoop existing 0 files [])

/-- Row transformation of the set-based update
`request.user.photos.filter(is_profile_picture=True).update(is_profile_picture=False)`
in `set_profile_picture`. -/
def clearStep (acct : Nat) (ph : UserPhoto) : UserPhoto :=
  if ph.user == acct && ph.is_profile_picture then { ph with is_profile_picture := false } else ph

/-- The `set_profile_picture` view over the `user_photos` table: first clear
every canonical flag of the caller's photos, then fetch the requested photo
(owner-scoped) and flag it; the clearing update has already been persisted
when the lookup raises `DoesNotExist` (there is no surrounding
transaction). -/
def set_profile_picture (acct pid : Nat) (db : List UserPhoto) :
    Except String Unit × List UserPhoto :=
  let cleared := db.map (clearStep acct)
  match cleared.find? (fun ph => ph.id == pid && ph.user == acct) with
  | none => (Except.error "Photo not found", cleared)
  | some ph =>
    (Except.ok (),
     cleared.map (fun q => if q.id == ph.id then { ph with is_profile_picture := true } else q))

/-! ### Distance utility (models.py `People.calculate_distance`) -/

/-- Python truthiness of an optional decimal column (`None` and `0` are
falsy); this is the test behind `if not self.latitude or not
self.longitude:`. -/
def decimalTruthy : Option ℚ → Bool
  | none => false
  | some q => decide (q ≠ 0)

/-- Degrees to radians, Python's `math.radians`. -/
noncomputable def radians (x : ℝ) : ℝ := x * Real.pi / 180

/-- Python's `math.atan2 y x` (quadrant-aware arctangent). -/
noncomputable def atan2 (y x : ℝ) : ℝ :=
  if 0 < x then Real.arctan (y / x)
  else if x < 0 then
    (if 0 ≤ y then Real.arctan (y / x) + Real.pi else Real.arctan (y / x) - Real.pi)
  else if 0 < y then Real.pi / 2
  else if y < 0 then -(Real.pi / 2)
  else 0

/-- The haversine computation of `calculate_distance`: Earth radius 3959
miles, inputs in degrees converted to radians, central angle via
`2 * atan2(sqrt a, sqrt (1 - a))`. -/
noncomputable def haversine_miles (lat1d lon1d lat2d lon2d : ℝ) : ℝ :=
  let lat1 := radians lat1d
  let lon1 := radians lon1d
  let lat2 := radians lat2d
  let lon2 := radians lon2d
  let dlat := lat2 - lat1
  let dlon := lon2 - lon1
  let a := Real.sin (dlat / 2) ^ 2 + Real.cos lat1 * Real.cos lat2 * Real.sin (dlon / 2) ^ 2
  let c := 2 * atan2 (Real.sqrt a) (Real.sqrt (1 - a))
  3959 * c

/-- Rounding to one decimal place, Python's `round(x, 1)` (CPython rounds
ties to even; over the reals we use the standard nearest-integer rounding —
the tie convention is immaterial to the claims, which use the same rounding
on both sides). -/
noncomputable def roundTo1 (x : ℝ) : ℝ := (round (x * 10) : ℤ) / 10

/-- `People.calculate_distance(user_lat, user_lon)`: `None` when the
person's latitude or longitude is falsy (absent or zero), otherwise the
haversine distance in miles rounded to one decimal. -/
noncomputable def calculate_distance (p : People) (user_lat user_lon : ℝ) : Option ℝ :=
  if !decimalTruthy p.latitude || !decimalTruthy p.longitude then none
  else some (roundTo1 (haversine_miles user_lat user_lon
    ((p.latitude.getD 0 : ℚ) : ℝ) ((p.longitude.getD 0 : ℚ) : ℝ)))

/-! ### Concrete records used by witnesses and counterexamples -/

/-- Baseline active person used to build concrete instances. -/
def basePerson : People :=
  { id := 1, first_name := "Ada", last_name := "Lovelace", age := some 30,
    gender := "female", occupation := "engineer", location := "London",
    membership_type := "regular", verified := true, is_active := true,
    created_at := 0, profile_views := 0, profile_picture := none,
    photos := [], latitude := none, longitude := none }

/-- Account whose primary picture attribute is set while a canonical-flagged
photo also exists (used to separate the Account presenter from the spec's
selection order). -/
def acct2 : CustomUser :=
  { profile_picture := some "attr.jpg",
    photos := [{ id := 1, user := 1, image := "photo.jpg", is_profile_picture := true }] }

/-- Person with no primary attribute whose canonical-flagged photo sits
second in stored order. -/
def person4 : People :=
  { basePerson with
    profile_picture := none
    photos := [{ image := "a", is_profile_picture := false },
               { image := "b", is_profile_picture := true }] }

/-- Unread notification of account 1. -/
def notif5 : Notification :=
  { id := 1, user := 1, is_read := false, read_at := none, created_at := 10 }

/-- Already-read notification of account 1, with its read timestamp set. -/
def notif5r : Notification :=
  { id := 2, user := 1, is_read := true, read_at := some 3, created_at := 11 }

/-- Person with nonzero coordinates (the haversine path of
`calculate_distance`). -/
def person7 : People := { basePerson with latitude := some 1, longitude := some 1 }

/-- Person located at latitude 0, longitude 0: both coordinates non-null,
both falsy for Python's truthiness test. -/
def person7zero : People := { basePerson with latitude := some 0, longitude := some 0 }

/-- Photo table holding a single canonical-flagged photo of account 1
(photo id 1). -/
def photos10 : List UserPhoto :=
  [{ id := 1, user := 1, image := "a.jpg", is_profile_picture := true }]

/-! ### Generic list lemmas -/

theorem map_fixed_of_map_eq_self {α : Type} {f : α → α} :
    ∀ {l : List α}, l.map f = l → ∀ x ∈ l, f x = x := by
  intro l
  induction l with
  | nil => intro _ x hx; cases hx
  | cons a t ih =>
    intro h x hx
    rw [List.map_cons, List.cons.injEq] at h
    cases hx with
    | head => exact h.1
    | tail _ hx' => exact ih h.2 x hx'

/-! ### C1: membership tier gate -/

/-- C1: for every pair of tier labels the access-gate decision equals
`rank viewer ≥ rank subject`, with `regular=1`, `gold=2`, `platinum=3`,
any unknown label ranking 1; in particular gold may view regular, regular
may not view gold, and every tier may view itself. -/
theorem tier_gate_correct :
    (∀ a b, can_view a b = decide (rank a ≥ rank b))
    ∧ rank "regular" = 1 ∧ rank "gold" = 2 ∧ rank "platinum" = 3
    ∧ (∀ t, t ≠ "regular" → t ≠ "gold" → t ≠ "platinum" → rank t = 1)
    ∧ can_view "gold" "regular" = true
    ∧ can_view "regular" "gold" = false
    ∧ (∀ t, can_view t t = true) := by
  refine ⟨fun a b => rfl, by decide, by decide, by decide, ?_, by decide, by decide, ?_⟩
  · intro t h1 h2 h3
    simp [rank, membership_hierarchy, List.lookup, beq_eq_false_iff_ne.mpr h1,
      beq_eq_false_iff_ne.mpr h2, beq_eq_false_iff_ne.mpr h3]
  · intro t
    simp [can_view]

/-- Witness for C1 at the unknown tier label "vip". -/
theorem tier_gate_correct_witness :
    ("vip" ≠ "regular" ∧ "vip" ≠ "gold" ∧ "vip" ≠ "platinum")
    ∧ rank "vip" = 1 ∧ can_view "vip" "vip" = true := by
  refine ⟨⟨by decide, by decide, by decide⟩, ?_, ?_⟩
  · exact tier_gate_correct.2.2.2.2.1 "vip" (by decide) (by decide) (by decide)
  · exact tier_gate_correct.2.2.2.2.2.2.2 "vip"

/-! ### C2: canonical-picture selection -/

/-- C2 (counterexample to the claim as stated): the claimed selection order
"primary attribute first" does not apply to the Account presentation —
`UserProfileSerializer.get_profile_picture` never consults the
`profile_picture` attribute, so an account with the attribute set and a
canonical-flagged photo gets the photo, not the attribute. -/
theorem canonical_picture_account_counterexample :
    user_get_profile_picture acct2 = some "photo.jpg"
    ∧ specCanonicalPicture acct2.profile_picture UserPhoto.image UserPhoto.is_profile_picture acct2.photos
        = some "attr.jpg"
    ∧ user_get_profile_picture acct2
        ≠ specCanonicalPicture acct2.profile_picture UserPhoto.image UserPhoto.is_profile_picture acct2.photos :=
  ⟨by decide, by decide, by decide⟩

/-- C2 (amended): the Person presentation selects the canonical picture in
the spec's priority order (primary attribute if truthy, else first
canonical-flagged photo, else first photo, else null — each materialized to
a URL), while the Account presentation runs the same algorithm with the
primary attribute skipped, returning raw image references. -/
theorem canonical_picture_selection :
    (∀ cloud p, people_get_profile_picture cloud p
      = (specCanonicalPicture p.profile_picture PeoplePhoto.image PeoplePhoto.is_profile_picture p.photos).bind
          (get_full_image_url cloud))
    ∧ (∀ u, user_get_profile_picture u
      = specCanonicalPicture none UserPhoto.image UserPhoto.is_profile_picture u.photos) := by
  constructor
  · intro cloud p
    by_cases hattr : truthyS p.profile_picture
    · cases hp : p.profile_picture with
      | none => rw [hp] at hattr; simp [truthyS] at hattr
      | some s =>
        rw [hp] at hattr
        simp [people_get_profile_picture, specCanonicalPicture, hp, hattr]
    · simp only [people_get_profile_picture, specCanonicalPicture, hattr, if_neg, Bool.false_eq_true,
        not_false_eq_true]
      cases hf : p.photos.find? (fun ph => ph.is_profile_picture) with
      | some ph => simp [hf]
      | none =>
        cases hh : p.photos.head? with
        | some ph => simp [hf, hh]
        | none => simp [hf, hh]
  · intro u
    simp only [user_get_profile_picture, specCanonicalPicture, truthyS, Bool.false_eq_true,
      if_neg, not_false_eq_true]
    cases hf : u.photos.find? (fun ph => ph.is_profile_picture) with
    | some ph => simp [hf]
    | none =>
      cases hh : u.photos.head? with
      | some ph => simp [hf, hh]
      | none => simp [hf, hh]

/-! ### C3: person detail request flow -/

/-- C3: `get_person_detail` leaves the store untouched when the person is
absent/inactive or the gate denies (the denied payload carrying the subject's
required tier and nothing else of the subject), and on a grant increments
exactly the subject's `profile_views`, leaving every other person — and every
other field of the subject — unchanged. -/
theorem person_detail_effects (v : String) (pid : Nat) (db : List People) :
    ((∀ p ∈ db, ¬(p.id = pid ∧ p.is_active = true)) →
      get_person_detail v pid db = (DetailResponse.notFound, db))
    ∧ (∀ person, db.find? (fun p => p.id == pid && p.is_active) = some person →
        (rank v < rank person.membership_type →
          get_person_detail v pid db =
            (DetailResponse.locked
              ("Upgrade to " ++ person.membership_type ++ " membership to view this profile")
              person.membership_type v, db))
        ∧ (rank person.membership_type ≤ rank v →
          (get_person_detail v pid db).1
            = DetailResponse.ok { person with profile_views := person.profile_views + 1 } v
          ∧ (get_person_detail v pid db).2
            = db.map (fun p => if p.id == person.id then
                { person with profile_views := person.profile_views + 1 } else p)
          ∧ ∀ p ∈ db, p.id ≠ person.id → p ∈ (get_person_detail v pid db).2)) := by
  constructor
  · intro h
    have hfind : db.find? (fun p => p.id == pid && p.is_active) = none := by
      apply List.find?_eq_none.mpr
      intro p hp
      have := h p hp
      simp only [Bool.and_eq_true, beq_iff_eq]
      intro hcontra
      exact this ⟨hcontra.1, hcontra.2⟩
    simp [get_person_detail, hfind]
  · intro person hfind
    constructor
    · intro hlt
      simp [get_person_detail, hfind, hlt]
    · intro hle
      have hnlt : ¬ rank v < rank person.membership_type := not_lt.mpr hle
      refine ⟨by simp [get_person_detail, hfind, hnlt], by simp [get_person_detail, hfind, hnlt], ?_⟩
      intro p hp hne
      have hfix : (fun q => if q.id == person.id then
          { person with profile_views := person.profile_views + 1 } else q) p = p := by
        simp [beq_eq_false_iff_ne.mpr hne]
      have hmem := List.mem_map_of_mem (fun q => if q.id == person.id then
          { person with profile_views := person.profile_views + 1 } else q) hp
      rw [hfix] at hmem
      simp only [get_person_detail, hfind, hnlt, if_neg, not_false_eq_true]
      exact hmem

/-- Witness for C3: a gold viewer reads the regular person `basePerson`
(stored alone, with 0 prior views); only that person's view counter moves. -/
theorem person_detail_effects_witness :
    [basePerson].find? (fun p => p.id == 1 && p.is_active) = some basePerson
    ∧ rank basePerson.membership_type ≤ rank "gold"
    ∧ (get_person_detail "gold" 1 [basePerson]).1
        = DetailResponse.ok { basePerson with profile_views := basePerson.profile_views + 1 } "gold"
    ∧ (get_person_detail "gold" 1 [basePerson]).2
        = [basePerson].map (fun p => if p.id == basePerson.id then
            { basePerson with profile_views := basePerson.profile_views + 1 } else p) := by
  have hfind : [basePerson].find? (fun p => p.id == 1 && p.is_active) = some basePerson := by decide
  have h := ((person_detail_effects "gold" 1 [basePerson]).2 basePerson hfind).2 (by decide)
  exact ⟨hfind, by decide, h.1, h.2.1⟩

/-! ### C4: image-gallery assembly -/

/-- C4 (counterexample to the claim as stated): `get_images` prepends only
the `profile_picture` attribute, not the selected canonical picture; with
the attribute unset and the canonical photo second in stored order, the
gallery is not canonical-first. -/
theorem gallery_canonical_first_counterexample :
    get_images "" person4 = ["a", "b"]
    ∧ people_get_profile_picture "" person4 = some "b"
    ∧ specGallery "" person4 = ["b", "a"]
    ∧ get_images "" person4 ≠ specGallery "" person4 :=
  ⟨by decide, by decide, by decide, by decide⟩

theorem appendDedup_append (acc xs ys : List String) :
    appendDedup acc (xs ++ ys) = appendDedup (appendDedup acc xs) ys := by
  simp [appendDedup, List.foldl_append]

theorem foldl_url_eq_appendDedup (cloud : String) (photos : List PeoplePhoto) :
    ∀ acc : List String,
      photos.foldl (fun images ph =>
        match get_full_image_url cloud ph.image with
        | none => images
        | some url => if url ∈ images then images else images ++ [url]) acc
      = appendDedup acc (photos.filterMap (fun ph => get_full_image_url cloud ph.image)) := by
  induction photos with
  | nil => intro acc; rfl
  | cons ph t ih =>
    intro acc
    cases h : get_full_image_url cloud ph.image with
    | none => simp only [List.foldl_cons, List.filterMap_cons, h, ih]
    | some url =>
      simp only [List.foldl_cons, List.filterMap_cons, h, ih, appendDedup]

theorem appendDedup_nodup (xs : List String) :
    ∀ acc : List String, acc.Nodup → (appendDedup acc xs).Nodup := by
  induction xs with
  | nil => intro acc h; exact h
  | cons x t ih =>
    intro acc h
    simp only [appendDedup, List.foldl_cons]
    by_cases hx : x ∈ acc
    · rw [if_pos hx]
      exact ih acc h
    · rw [if_neg hx]
      refine ih (acc ++ [x]) ?_
      simp [List.nodup_append, h, hx]

/-- C4 (amended): the assembled gallery is the `profile_picture` attribute's
URL first (when the attribute is truthy), followed by the owned photos'
URLs in stored order, exact duplicates removed first occurrence wins — and
it never contains duplicates.  (The claim's "canonical picture first" holds
only when the canonical picture is the primary attribute.) -/
theorem gallery_assembly (cloud : String) (p : People) :
    get_images cloud p
      = dedupFirstWins ((if truthyS p.profile_picture then
            (get_full_image_url cloud (p.profile_picture.getD "")).toList else [])
          ++ p.photos.filterMap (fun ph => get_full_image_url cloud ph.image))
    ∧ (get_images cloud p).Nodup := by
  have hinit : appendDedup []
      (if truthyS p.profile_picture then
        (get_full_image_url cloud (p.profile_picture.getD "")).toList else [])
      = (if truthyS p.profile_picture then
        (get_full_image_url cloud (p.profile_picture.getD "")).toList else []) := by
    by_cases h : truthyS p.profile_picture
    · rw [if_pos h]
      cases get_full_image_url cloud (p.profile_picture.getD "") <;> simp [appendDedup]
    · rw [if_neg h]
      rfl
  have hge : get_images cloud p
      = appendDedup (if truthyS p.profile_picture then
          (get_full_image_url cloud (p.profile_picture.getD "")).toList else [])
        (p.photos.filterMap (fun ph => get_full_image_url cloud ph.image)) := by
    simp only [get_images]
    exact foldl_url_eq_appendDedup cloud p.photos _
  constructor
  · rw [dedupFirstWins, appendDedup_append, hinit, hge]
  · rw [hge]
    apply appendDedup_nodup
    by_cases h : truthyS p.profile_picture
    · rw [if_pos h]
      cases get_full_image_url cloud (p.profile_picture.getD "") <;> simp
    · rw [if_neg h]
      exact List.nodup_nil

/-! ### C5: notification mark-read idempotence -/

theorem markAllStep_of_read {acct now : Nat} {n : Notification} (h : n.is_read = true) :
    markAllStep acct now n = n := by
  simp [markAllStep, h]

theorem markAllStep_cond (acct now : Nat) (n : Notification) :
    ((markAllStep acct now n).user == acct && !(markAllStep acct now n).is_read) = false := by
  by_cases h : (n.user == acct && !n.is_read) = true
  · simp only [markAllStep, if_pos h]
    simp
  · simp only [markAllStep, if_neg h]
    simpa using h

theorem markAllStep_eq_self {acct now : Nat} {n : Notification}
    (h : (n.user == acct && !n.is_read) = false) : markAllStep acct now n = n := by
  simp [markAllStep, h]

theorem markAllStep_idem (acct now1 now2 : Nat) (n : Notification) :
    markAllStep acct now2 (markAllStep acct now1 n) = markAllStep acct now1 n :=
  markAllStep_eq_self (markAllStep_cond acct now1 n)

theorem markManyStep_of_read {ids : List Nat} {acct now : Nat} {n : Notification}
    (h : n.is_read = true) : markManyStep ids acct now n = n := by
  simp [markManyStep, h]

theorem markManyStep_cond (ids : List Nat) (acct now : Nat) (n : Notification) :
    (ids.contains (markManyStep ids acct now n).id
      && (markManyStep ids acct now n).user == acct
      && !(markManyStep ids acct now n).is_read) = false := by
  by_cases h : (ids.contains n.id && n.user == acct && !n.is_read) = true
  · simp only [markManyStep, if_pos h]
    simp
  · simp only [markManyStep, if_neg h]
    simpa using h

theorem markManyStep_eq_self {ids : List Nat} {acct now : Nat} {n : Notification}
    (h : (ids.contains n.id && n.user == acct && !n.is_read) = false) :
    markManyStep ids acct now n = n := by
  simp only [markManyStep]
  rw [if_neg (ne_true_of_eq_false h)]

theorem markManyStep_idem (ids : List Nat) (acct now1 now2 : Nat) (n : Notification) :
    markManyStep ids acct now2 (markManyStep ids acct now1 n) = markManyStep ids acct now1 n :=
  markManyStep_eq_self (markManyStep_cond ids acct now1 n)

theorem mark_as_read_of_read {now : Nat} {n : Notification} (h : n.is_read = true) :
    mark_as_read now n = n := by
  simp [mark_as_read, h]

theorem mark_as_read_is_read (now : Nat) (n : Notification) :
    (mark_as_read now n).is_read = true := by
  by_cases h : n.is_read = true <;> simp [mark_as_read, h]

theorem mark_as_read_id (now : Nat) (n : Notification) : (mark_as_read now n).id = n.id := by
  by_cases h : n.is_read = true <;> simp [mark_as_read, h]

theorem mark_as_read_user (now : Nat) (n : Notification) : (mark_as_read now n).user = n.user := by
  by_cases h : n.is_read = true <;> simp [mark_as_read, h]

theorem find?_replaceById {pred : Notification → Bool} :
    ∀ {db : List Notification} {n : Notification}, db.find? pred = some n →
      ∀ {x : Notification}, pred x = true →
        (replaceById n.id x db).find? pred = some x := by
  intro db
  induction db with
  | nil => intro n h; cases h
  | cons m t ih =>
    intro n hfind x hx
    unfold replaceById
    simp only [List.map_cons]
    by_cases hid : (m.id == n.id) = true
    · rw [if_pos hid]
      rw [List.find?_cons_of_pos _ hx]
    · rw [if_neg hid]
      have hpm : pred m = false := by
        by_contra hc
        have hpm' : pred m = true := by revert hc; cases pred m <;> simp
        rw [List.find?_cons_of_pos _ hpm'] at hfind
        have hmn : m = n := by injection hfind
        rw [hmn] at hid
        exact hid (by simp)
      rw [List.find?_cons_of_neg _ (by simp [hpm])]
      rw [List.find?_cons_of_neg _ (by simp [hpm])] at hfind
      exact ih hfind hx

theorem replaceById_idem (i : Nat) (x : Notification) (db : List Notification) :
    replaceById i x (replaceById i x db) = replaceById i x db := by
  unfold replaceById
  rw [List.map_map]
  apply List.map_congr_left
  intro m _
  simp only [Function.comp_apply]
  by_cases h : (m.id == i) = true
  · rw [if_pos h]
    by_cases hx : (x.id == i) = true
    · rw [if_pos hx]
    · rw [if_neg hx]
  · rw [if_neg h, if_neg h]

/-- C5: the three mark-read operations are idempotent — already-read rows
(including their read timestamps) are fixed points of every row
transformation and are excluded from the updated-count filter, and re-running
`mark_all_read` / `mark_many_read` (same ids) / `mark_read` (same id) on the
resulting table updates 0 rows and leaves the table identical. -/
theorem notifications_mark_read_idempotent :
    (∀ acct now (n : Notification), n.is_read = true →
      markAllStep acct now n = n
      ∧ (∀ ids, markManyStep ids acct now n = n)
      ∧ mark_as_read now n = n
      ∧ ∀ db : List Notification, n ∉ db.filter (fun m => m.user == acct && !m.is_read))
    ∧ (∀ acct now1 now2 db,
        mark_all_notifications_as_read acct now2 (mark_all_notifications_as_read acct now1 db).2
          = (0, (mark_all_notifications_as_read acct now1 db).2))
    ∧ (∀ ids acct now1 now2 db,
        mark_multiple_notifications_as_read ids acct now2
            (mark_multiple_notifications_as_read ids acct now1 db).2
          = (0, (mark_multiple_notifications_as_read ids acct now1 db).2))
    ∧ (∀ acct nid now1 now2 db,
        (mark_notification_as_read acct nid now2 (mark_notification_as_read acct nid now1 db).2).2
          = (mark_notification_as_read acct nid now1 db).2) := by
  refine ⟨?_, ?_, ?_, ?_⟩
  · intro acct now n h
    refine ⟨markAllStep_of_read h, fun ids => markManyStep_of_read h, mark_as_read_of_read h, ?_⟩
    intro db
    simp [List.mem_filter, h]
  · intro acct now1 now2 db
    simp only [mark_all_notifications_as_read]
    rw [Prod.mk.injEq]
    constructor
    · rw [List.length_eq_zero]
      apply List.filter_eq_nil_iff.mpr
      intro m hm
      obtain ⟨x, _, hx⟩ := List.mem_map.mp hm
      rw [← hx]
      simp [markAllStep_cond acct now1 x]
    · rw [List.map_map]
      apply List.map_congr_left
      intro x _
      simp only [Function.comp_apply]
      exact markAllStep_idem acct now1 now2 x
  · intro ids acct now1 now2 db
    simp only [mark_multiple_notifications_as_read]
    rw [Prod.mk.injEq]
    constructor
    · rw [List.length_eq_zero]
      apply List.filter_eq_nil_iff.mpr
      intro m hm
      obtain ⟨x, _, hx⟩ := List.mem_map.mp hm
      rw [← hx]
      exact ne_true_of_eq_false (markManyStep_cond ids acct now1 x)
    · rw [List.map_map]
      apply List.map_congr_left
      intro x _
      simp only [Function.comp_apply]
      exact markManyStep_idem ids acct now1 now2 x
  · intro acct nid now1 now2 db
    cases hfind : db.find? (fun n => n.id == nid && n.user == acct) with
    | none =>
      simp [mark_notification_as_read, hfind]
    | some n =>
      have hpredn := List.find?_some hfind
      have hpred' : ((mark_as_read now1 n).id == nid && (mark_as_read now1 n).user == acct) = true := by
        rw [mark_as_read_id, mark_as_read_user]
        exact hpredn
      have hfind2 := find?_replaceById hfind hpred'
      simp only [mark_notification_as_read, hfind, hfind2]
      rw [mark_as_read_of_read (mark_as_read_is_read now1 n), mark_as_read_id]
      exact replaceById_idem n.id (mark_as_read now1 n) db

/-- Witness for C5: a read notification (timestamp 3) is untouched, and
re-running mark-all-read over a two-row table updates 0 rows. -/
theorem notifications_mark_read_idempotent_witness :
    notif5r.is_read = true
    ∧ markAllStep 1 9 notif5r = notif5r
    ∧ mark_as_read 9 notif5r = notif5r
    ∧ mark_all_notifications_as_read 1 9 (mark_all_notifications_as_read 1 8 [notif5, notif5r]).2
        = (0, (mark_all_notifications_as_read 1 8 [notif5, notif5r]).2) := by
  refine ⟨by decide, ?_, ?_, ?_⟩
  · exact (notifications_mark_read_idempotent.1 1 9 notif5r (by decide)).1
  · exact (notifications_mark_read_idempotent.1 1 9 notif5r (by decide)).2.2.1
  · exact notifications_mark_read_idempotent.2.1 1 8 9 [notif5, notif5r]

/-! ### C6: notification list limit handling -/

/-- C6: the notification list's limit handling — a missing limit takes the
default 50, a non-numeric limit falls back to 50, a negative numeric limit
hits Django's `ValueError` on negative slicing and is caught by the same
fallback, a non-negative limit truncates to that many rows, and in every
case the returned list is a prefix (a pure truncation) of the account's
filtered queryset — the operation never errors. -/
theorem notifications_limit_fallback :
    (∀ acct irp lp (db : List Notification),
      (get_user_notifications acct irp lp db).1 = applyLimit lp (notifQueryset acct irp db))
    ∧ (∀ (α : Type) (xs : List α), applyLimit none xs = xs.take 50)
    ∧ (∀ (α : Type) (s : String) (xs : List α),
        pyInt s = none → applyLimit (some s) xs = xs.take 50)
    ∧ (∀ (α : Type) (s : String) (k : Int) (xs : List α),
        pyInt s = some k → k < 0 → applyLimit (some s) xs = xs.take 50)
    ∧ (∀ (α : Type) (s : String) (k : Int) (xs : List α),
        pyInt s = some k → 0 ≤ k → applyLimit (some s) xs = xs.take k.toNat)
    ∧ (∀ (α : Type) (lp : Option String) (xs : List α), applyLimit lp xs <+: xs) := by
  refine ⟨fun acct irp lp db => rfl, fun α xs => rfl, ?_, ?_, ?_, ?_⟩
  · intro α s xs h
    simp [applyLimit, h]
  · intro α s k xs h hk
    simp [applyLimit, h, qsSlice, if_pos hk]
  · intro α s k xs h hk
    simp [applyLimit, h, qsSlice, if_neg (not_lt.mpr hk)]
  · intro α lp xs
    have htake : ∀ n : Nat, xs.take n <+: xs := fun n => ⟨xs.drop n, List.take_append_drop n xs⟩
    cases lp with
    | none => exact htake 50
    | some s =>
      cases hq : pyInt s with
      | none =>
        simp only [applyLimit, hq]
        exact htake 50
      | some k =>
        simp only [applyLimit, hq, qsSlice]
        by_cases hk : k < 0
        · simp only [if_pos hk]
          exact htake 50
        · simp only [if_neg hk]
          exact htake k.toNat

/-- Witness for C6 at the limits "abc" (non-numeric), "-1" (negative) and
"2" (plain truncation). -/
theorem notifications_limit_fallback_witness :
    pyInt "abc" = none
    ∧ applyLimit (some "abc") [1, 2, 3] = ([1, 2, 3] : List Nat).take 50
    ∧ pyInt "-1" = some (-1)
    ∧ applyLimit (some "-1") [1, 2, 3] = ([1, 2, 3] : List Nat).take 50
    ∧ applyLimit (some "2") [1, 2, 3] = ([1, 2, 3] : List Nat).take ((2 : Int).toNat) := by
  refine ⟨by decide, ?_, by decide, ?_, ?_⟩
  · exact notifications_limit_fallback.2.2.1 Nat "abc" [1, 2, 3] (by decide)
  · exact notifications_limit_fallback.2.2.2.1 Nat "-1" (-1) [1, 2, 3] (by decide) (by decide)
  · exact notifications_limit_fallback.2.2.2.2.1 Nat "2" 2 [1, 2, 3] (by decide) (by decide)

/-! ### C7: distance utility -/

/-- C7 (counterexample to the claim as stated): at latitude 0 / longitude 0
both coordinates are non-null, yet `calculate_distance` returns `None`,
because `if not self.latitude or not self.longitude` uses Python truthiness
and the decimal 0 is falsy. -/
theorem calculate_distance_zero_counterexample :
    person7zero.latitude ≠ none
    ∧ person7zero.longitude ≠ none
    ∧ calculate_distance person7zero 10 10 = none := by
  refine ⟨by decide, by decide, ?_⟩
  simp [calculate_distance, decimalTruthy, person7zero, basePerson]

/-- C7 (amended): whenever the person's latitude and longitude are non-null
and nonzero, `calculate_distance` returns the haversine great-circle
distance in miles (Earth radius 3959, degrees converted to radians) rounded
to one decimal place; and whenever the latitude or longitude is absent or
zero, it returns `None`. -/
theorem calculate_distance_haversine :
    (∀ (p : People) (user_lat user_lon : ℝ),
      decimalTruthy p.latitude = true → decimalTruthy p.longitude = true →
      calculate_distance p user_lat user_lon
        = some (roundTo1 (haversine_miles user_lat user_lon
            ((p.latitude.getD 0 : ℚ) : ℝ) ((p.longitude.getD 0 : ℚ) : ℝ))))
    ∧ (∀ (p : People) (user_lat user_lon : ℝ),
      p.latitude = none ∨ p.latitude = some 0 ∨ p.longitude = none ∨ p.longitude = some 0 →
      calculate_distance p user_lat user_lon = none) := by
  constructor
  · intro p user_lat user_lon hlat hlon
    simp [calculate_distance, hlat, hlon]
  · intro p user_lat user_lon h
    have hfalse : decimalTruthy p.latitude = false ∨ decimalTruthy p.longitude = false := by
      rcases h with h | h | h | h
      · left
        rw [h]
        rfl
      · left
        rw [h]
        simp [decimalTruthy]
      · right
        rw [h]
        rfl
      · right
        rw [h]
        simp [decimalTruthy]
    rcases hfalse with h' | h' <;> simp [calculate_distance, h']

/-- Witness for C7: the haversine branch at a person with coordinates
(1, 1), and the `None` branch at a person whose latitude is absent. -/
theorem calculate_distance_haversine_witness :
    decimalTruthy person7.latitude = true
    ∧ decimalTruthy person7.longitude = true
    ∧ calculate_distance person7 2 3
        = some (roundTo1 (haversine_miles 2 3
            ((person7.latitude.getD 0 : ℚ) : ℝ) ((person7.longitude.getD 0 : ℚ) : ℝ)))
    ∧ basePerson.latitude = none
    ∧ calculate_distance basePerson 2 3 = none :=
  ⟨by decide, by decide, calculate_distance_haversine.1 person7 2 3 (by decide) (by decide),
   by decide, calculate_distance_haversine.2 basePerson 2 3 (Or.inl (by decide))⟩

/-! ### C8: photo-upload ceiling -/

theorem uploadLoop_length (existing : Nat) :
    ∀ (fs : List String) (index : Nat) (photos : List CreatedPhoto),
      (uploadLoop existing index fs photos).length
        = photos.length + min fs.length (6 - (existing + photos.length)) := by
  intro fs
  induction fs with
  | nil =>
    intro index photos
    simp only [uploadLoop, List.length_nil]
    omega
  | cons f t ih =>
    intro index photos
    by_cases h : 6 ≤ existing + photos.length
    · simp only [uploadLoop, if_pos h, List.length_cons]
      omega
    · simp only [uploadLoop, if_neg h, List.length_cons]
      rw [ih (index + 1)]
      simp only [List.length_append, List.length_cons, List.length_nil]
      omega

/-- C8: `upload_user_photos` enforces the 6-photo ceiling — an empty batch
and a batch of more than 6 files are rejected outright, and otherwise
exactly `min (batch size) (6 - existing)` photos are stored, so an account
with 4 photos uploading 4 more stores exactly 2 and ends with exactly 6. -/
theorem photo_upload_ceiling :
    (∀ existing, upload_user_photos existing [] = Except.error "No photos provided")
    ∧ (∀ existing (files : List String), 6 < files.length →
        upload_user_photos existing files = Except.error "Maximum 6 photos allowed")
    ∧ (∀ existing (files : List String), 1 ≤ files.length → files.length ≤ 6 →
        (upload_user_photos existing files).map List.length
          = Except.ok (min files.length (6 - existing)))
    ∧ (∀ existing (files : List String), 1 ≤ files.length → files.length ≤ 6 → existing ≤ 6 →
        existing + min files.length (6 - existing) ≤ 6) := by
  refine ⟨fun existing => rfl, ?_, ?_, ?_⟩
  · intro e files h
    cases files with
    | nil => exact absurd h (by simp)
    | cons f t =>
      simp only [upload_user_photos, List.isEmpty_cons]
      rw [if_neg (by simp), if_pos h]
  · intro e files h1 h6
    have hne : files.isEmpty = false := by
      cases files with
      | nil => simp at h1
      | cons f t => simp
    have hnlt : ¬ 6 < files.length := not_lt.mpr h6
    simp only [upload_user_photos, hne, Bool.false_eq_true, if_false, if_neg hnlt, Except.map]
    rw [uploadLoop_length e files 0 []]
    simp
  · intro e files h1 h6 he
    omega

/-- Witness for C8: an account holding 4 photos uploads 4 more files —
exactly 2 are stored, for a final count of 6. -/
theorem photo_upload_ceiling_witness :
    (upload_user_photos 4 ["e", "f", "g", "h"]).map List.length = Except.ok 2
    ∧ 4 + 2 = 6 := by
  constructor
  · have h := photo_upload_ceiling.2.2.1 4 ["e", "f", "g", "h"] (by decide) (by decide)
    rw [h]
    rfl
  · decide

/-! ### C9: people list is tier-blind -/

/-- C9: two viewers who differ only in membership tier receive the same
people (same ids, in the same order) and the same count from
`get_people_list` under identical query parameters — the tier reaches only
the `user_membership` / `user_membership_level` echo fields. -/
theorem people_list_tier_noninterference (t1 t2 : String) (q : PeopleQuery) (db : List People) :
    (get_people_list t1 q db).results.map People.id
        = (get_people_list t2 q db).results.map People.id
    ∧ (get_people_list t1 q db).count = (get_people_list t2 q db).count :=
  ⟨rfl, rfl⟩

/-! ### C10: set-profile-picture error branch -/

/-- C10: when `set_profile_picture` is called with a photo id that does not
resolve to a photo of the calling account, it reports NotFound — but the
clearing update has already run, so afterwards no photo of the account is
flagged canonical, and if some photo of the account was flagged before, the
stored state has changed despite the error. -/
theorem set_profile_picture_notfound_clears (acct pid : Nat) (db : List UserPhoto)
    (habsent : ∀ ph ∈ db, ¬(ph.id = pid ∧ ph.user = acct)) :
    (set_profile_picture acct pid db).1 = Except.error "Photo not found"
    ∧ (∀ ph ∈ (set_profile_picture acct pid db).2, ph.user = acct → ph.is_profile_picture = false)
    ∧ ((∃ ph ∈ db, ph.user = acct ∧ ph.is_profile_picture = true) →
        (set_profile_picture acct pid db).2 ≠ db) := by
  have hkeep : ∀ x : UserPhoto, (clearStep acct x).id = x.id ∧ (clearStep acct x).user = x.user := by
    intro x
    unfold clearStep
    by_cases hc : (x.user == acct && x.is_profile_picture) = true
    · rw [if_pos hc]
      exact ⟨rfl, rfl⟩
    · rw [if_neg hc]
      exact ⟨rfl, rfl⟩
  have hfind : (db.map (clearStep acct)).find? (fun ph => ph.id == pid && ph.user == acct) = none := by
    apply List.find?_eq_none.mpr
    intro m hm
    obtain ⟨x, hx, hxm⟩ := List.mem_map.mp hm
    intro hcontra
    simp only [Bool.and_eq_true, beq_iff_eq] at hcontra
    refine habsent x hx ⟨?_, ?_⟩
    · rw [← (hkeep x).1, hxm]
      exact hcontra.1
    · rw [← (hkeep x).2, hxm]
      exact hcontra.2
  refine ⟨?_, ?_, ?_⟩
  · simp [set_profile_picture, hfind]
  · intro ph hph hu
    have hph' : ph ∈ db.map (clearStep acct) := by
      simpa [set_profile_picture, hfind] using hph
    obtain ⟨x, hx, hxm⟩ := List.mem_map.mp hph'
    rw [← hxm]
    by_cases hc : (x.user == acct && x.is_profile_picture) = true
    · simp [clearStep, hc]
    · have hxu : x.user = acct := by
        rw [← hxm] at hu
        unfold clearStep at hu
        rw [if_neg hc] at hu
        exact hu
      simp only [clearStep, if_neg hc]
      cases hf : x.is_profile_picture with
      | false => rfl
      | true => exact absurd (by simp [hxu, hf]) hc
  · intro hex heq
    obtain ⟨ph, hph, hu, hflag⟩ := hex
    have heq' : db.map (clearStep acct) = db := by
      simpa [set_profile_picture, hfind] using heq
    have hfix := map_fixed_of_map_eq_self heq' ph hph
    unfold clearStep at hfix
    rw [if_pos (by simp [hu, hflag])] at hfix
    have hproj := congrArg UserPhoto.is_profile_picture hfix
    simp [hflag] at hproj

/-- Witness for C10: account 1 owns one canonical-flagged photo (id 1);
requesting photo id 99 fails with NotFound yet clears the flag. -/
theorem set_profile_picture_notfound_clears_witness :
    (∀ ph ∈ photos10, ¬(ph.id = 99 ∧ ph.user = 1))
    ∧ (set_profile_picture 1 99 photos10).1 = Except.error "Photo not found"
    ∧ (∀ ph ∈ (set_profile_picture 1 99 photos10).2, ph.user = 1 → ph.is_profile_picture = false)
    ∧ (set_profile_picture 1 99 photos10).2 ≠ photos10 := by
  have habs : ∀ ph ∈ photos10, ¬(ph.id = 99 ∧ ph.user = 1) := by decide
  have h := set_profile_picture_notfound_clears 1 99 photos10 habs
  refine ⟨habs, h.1, h.2.1, h.2.2 ?_⟩
  exact ⟨{ id := 1, user := 1, image := "a.jpg", is_profile_picture := true }, by decide, by decide, by decide⟩
